import Mathlib

/-!
Shallow embedding of `src/pcr_calculator.py` (PCR master-mix calculator).

Python floats are modelled by exact rationals `ℚ`: every constant of the
program (11.0, 0.5, 6.0, 2.0) and every input appearing in the claims has an
exact decimal value, and the arithmetic of `PCRLogic.calculate` on these
values is modelled exactly.  Python's built-in one-argument `round` rounds to
the nearest integer with ties resolved to the even integer; `pyRound` below
implements that rule on `ℚ`.  Python `dict`s preserve insertion order, so an
ordered dictionary is modelled as a `List (String × ℚ)`.  `ValueError`s are
modelled by `Except String`, carrying the exact message the source raises.
-/

set_option maxRecDepth 8000

namespace PCR

/-- Python's built-in `round(x)` on a real value: the nearest integer, with an
exact tie (fractional part 1/2) resolved to the even integer. -/
def pyRound (q : ℚ) : ℤ :=
  if q - (⌊q⌋ : ℚ) < 1/2 then ⌊q⌋
  else if 1/2 < q - (⌊q⌋ : ℚ) then ⌊q⌋ + 1
  else if ⌊q⌋ % 2 = 0 then ⌊q⌋ else ⌊q⌋ + 1

/-- `PER_SAMPLE_TOTAL = 11.0`: total reaction volume per sample (µL). -/
def PER_SAMPLE_TOTAL : ℚ := 11

/-- `PRIMER_PER = 0.5`: volume of each primer per sample (µL). -/
def PRIMER_PER : ℚ := 1/2

/-- The message of the `ValueError` raised for a mix factor outside {2, 5}
(the spec's `InvalidMixFactor` error kind). -/
def InvalidMixFactor : String := "Mix concentration must be 2 or 5."

/-- The message of the `ValueError` raised for a negative computed DDW volume
(the spec's `NegativeDiluentVolume` error kind). -/
def NegativeDiluentVolume : String := "Computed DDW volume is negative."

namespace PCRLogic

/-- `PCRLogic.round_to_half`: `return round(x * 2) / 2.0`. -/
def round_to_half (x : ℚ) : ℚ := (pyRound (x * 2) : ℚ) / 2

/-- The f-string `f"Mix ({mix_x}X)"`. -/
def mixLabel (mix_x : ℤ) : String := "Mix (" ++ toString mix_x ++ "X)"

/-- The result triple of `PCRLogic.calculate`:
`(per_sample_dict, total_mix_dict, grand_total_vol)`. -/
structure CalcResult where
  per_sample : List (String × ℚ)
  totals : List (String × ℚ)
  grand_total : ℚ
deriving Repr, DecidableEq

/-- `PCRLogic.calculate(n_samples, excess_percent, mix_x)`, line for line:
mix-factor check, `mix_vol = 6.0 * (2.0 / mix_x)`,
`primers_total = 2 * PRIMER_PER`,
`ddw_vol = PER_SAMPLE_TOTAL - (mix_vol + primers_total)`, negative-DDW check,
the insertion-ordered `per_sample` dict, `factor = 1.0 + excess_percent / 100.0`,
per-ingredient `round_to_half(v * n_samples * factor)`, and
`grand_total = sum(totals.values())`. -/
def calculate (n_samples : ℤ) (excess_percent : ℚ) (mix_x : ℤ) :
    Except String CalcResult :=
  if ¬(mix_x = 2 ∨ mix_x = 5) then .error InvalidMixFactor
  else
    let mix_vol : ℚ := 6 * (2 / (mix_x : ℚ))
    let primers_total : ℚ := 2 * PRIMER_PER
    let ddw_vol : ℚ := PER_SAMPLE_TOTAL - (mix_vol + primers_total)
    if ddw_vol < 0 then .error NegativeDiluentVolume
    else
      let per_sample : List (String × ℚ) :=
        [("DDW", ddw_vol),
         (mixLabel mix_x, mix_vol),
         ("Primer Fwd", PRIMER_PER),
         ("Primer Rev", PRIMER_PER)]
      let factor : ℚ := 1 + excess_percent / 100
      let totals : List (String × ℚ) :=
        per_sample.map fun p => (p.1, round_to_half (p.2 * (n_samples : ℚ) * factor))
      let grand_total : ℚ := (totals.map Prod.snd).sum
      .ok ⟨per_sample, totals, grand_total⟩

/-- Python `str.ljust` as used by the format spec `f"{s:<20}"`: pad on the
right with spaces to the given width (no truncation). -/
def ljust (s : String) (w : Nat) : String :=
  s ++ String.mk (List.replicate (w - s.length) ' ')

/-- Right justification, the format spec `f"{s:>w}"`: pad on the left with
spaces to the given width (no truncation). -/
def rjust (s : String) (w : Nat) : String :=
  String.mk (List.replicate (w - s.length) ' ') ++ s

/-- Python string repetition `c * w` for a one-character string. -/
def srep (c : Char) (w : Nat) : String := String.mk (List.replicate w c)

/-- The fixed-point format spec `f"{v:.1f}"`: one fractional digit, nearest,
ties to even.  Exact for every value the program formats (multiples of 0.1);
the negative-zero display `-0.0` of Python floats in (-0.05, 0) is not
modelled, as no claim concerns it. -/
def fmt1 (q : ℚ) : String :=
  let m := pyRound (q * 10)
  (if m < 0 then "-" else "") ++ toString (m.natAbs / 10) ++ "." ++ toString (m.natAbs % 10)

/-- Python's `str` of a float with a short exact decimal expansion (the only
floats the report header interpolates): the shortest decimal form with at
least one fractional digit, e.g. `10.0`, `12.5`. -/
def floatRepr (q : ℚ) : String :=
  let k := max 1 ((((List.range 17).find? fun k => (q * (10 : ℚ) ^ k).den = 1)).getD 16)
  let m := (q * (10 : ℚ) ^ k).num
  let s := toString m.natAbs
  let s := if s.length < k + 1 then String.mk (List.replicate (k + 1 - s.length) '0') ++ s else s
  (if q < 0 then "-" else "") ++ s.dropRight k ++ "." ++ s.takeRight k

/-- The header f-string
`f"PCR Report | Samples: {n} | Excess: {exc}% | Mix: {mx}X"`. -/
def headerLine (n : ℤ) (exc : ℚ) (mx : ℤ) : String :=
  "PCR Report | Samples: " ++ toString n ++ " | Excess: " ++ floatRepr exc ++
    "% | Mix: " ++ toString mx ++ "X"

/-- The column-header f-string
`f"{'INGREDIENT':<20} | {'PER SAMPLE':>10} | {'MASTER MIX':>12}"`. -/
def columnHeader : String :=
  ljust "INGREDIENT" 20 ++ " | " ++ rjust "PER SAMPLE" 10 ++ " | " ++ rjust "MASTER MIX" 12

/-- One ingredient row, the loop body's f-string
`f"{k:<20} | {v:>7.1f} µL | {tot[k]:>9.1f} µL"`.  The lookup `tot[k]`
(a `KeyError` when the key is absent, which never happens on the program's
own dicts) is modelled with default 0. -/
def reportRow (tot : List (String × ℚ)) (p : String × ℚ) : String :=
  ljust p.1 20 ++ " | " ++ rjust (fmt1 p.2) 7 ++ " µL | " ++
    rjust (fmt1 ((tot.lookup p.1).getD 0)) 9 ++ " µL"

/-- The total row's f-string
`f"{'TOTAL VOLUME':<20} | {PER_SAMPLE_TOTAL:>7.1f} µL | {grand:>9.1f} µL"`. -/
def totalRow (grand : ℚ) : String :=
  ljust "TOTAL VOLUME" 20 ++ " | " ++ rjust (fmt1 PER_SAMPLE_TOTAL) 7 ++ " µL | " ++
    rjust (fmt1 grand) 9 ++ " µL"

/-- `PCRLogic.format_text_report(n, exc, mx, per, tot, grand)`: the four
header lines, one row per entry of `per` in insertion order, a dashed rule,
and the total row, joined with newlines. -/
def format_text_report (n : ℤ) (exc : ℚ) (mx : ℤ)
    (per tot : List (String × ℚ)) (grand : ℚ) : String :=
  let lines : List String :=
    [headerLine n exc mx, srep '=' 50, columnHeader, srep '-' 50]
  let lines := lines ++ per.map (reportRow tot)
  let lines := lines ++ [srep '-' 50, totalRow grand]
  String.intercalate "\n" lines

end PCRLogic

namespace PCRGui

/-- The validation in `PCRGui.get_inputs`: reads the three fields and returns
`None` when the sample count is below 1 or the excess is negative (the
`try`/`except` turns the raised `ValueError`s into `None`). -/
def get_inputs (n : ℤ) (e : ℚ) (m : ℤ) : Option (ℤ × ℚ × ℤ) :=
  if n < 1 then none
  else if e < 0 then none
  else some (n, e, m)

end PCRGui

/-- The rounding rule exactly as claim C2 words it (for comparison with the
source's `round_to_half`): nearest integer with an exact tie resolved away
from zero. -/
def roundHalfAwayFromZero (q : ℚ) : ℤ :=
  if q < 0 then -⌊-q + 1/2⌋ else ⌊q + 1/2⌋

end PCR

namespace PCR

open PCRLogic

/-- Python's `round` of a non-negative value is non-negative. -/
lemma pyRound_nonneg {q : ℚ} (h : 0 ≤ q) : 0 ≤ pyRound q := by
  have hf : (0 : ℤ) ≤ ⌊q⌋ := Int.floor_nonneg.mpr h
  unfold pyRound
  split
  · exact hf
  · split
    · omega
    · split
      · exact hf
      · omega

/-- `round_to_half` of a non-negative value is a non-negative half-integer. -/
lemma round_to_half_nonneg_half {x : ℚ} (hx : 0 ≤ x) :
    0 ≤ round_to_half x ∧ ∃ k : ℤ, 0 ≤ k ∧ round_to_half x = (k : ℚ) / 2 := by
  have h2 : (0 : ℚ) ≤ x * 2 := by positivity
  have hk := pyRound_nonneg h2
  refine ⟨?_, pyRound (x * 2), hk, rfl⟩
  unfold round_to_half
  have hc : (0 : ℚ) ≤ (pyRound (x * 2) : ℚ) := by exact_mod_cast hk
  exact div_nonneg hc (by norm_num)

/-- Normal form of `calculate` at mix factor 2: DDW 4.0, mix 6.0, primers 0.5. -/
lemma calculate_two (n : ℤ) (e : ℚ) :
    calculate n e 2 = Except.ok
      ⟨[("DDW", 4), ("Mix (2X)", 6), ("Primer Fwd", 1/2), ("Primer Rev", 1/2)],
       [("DDW", round_to_half (4 * (n : ℚ) * (1 + e / 100))),
        ("Mix (2X)", round_to_half (6 * (n : ℚ) * (1 + e / 100))),
        ("Primer Fwd", round_to_half (1/2 * (n : ℚ) * (1 + e / 100))),
        ("Primer Rev", round_to_half (1/2 * (n : ℚ) * (1 + e / 100)))],
       round_to_half (4 * (n : ℚ) * (1 + e / 100)) +
         (round_to_half (6 * (n : ℚ) * (1 + e / 100)) +
           (round_to_half (1/2 * (n : ℚ) * (1 + e / 100)) +
             (round_to_half (1/2 * (n : ℚ) * (1 + e / 100)) + 0)))⟩ := by
  with_unfolding_all rfl

/-- Normal form of `calculate` at mix factor 5: DDW 7.6, mix 2.4, primers 0.5. -/
lemma calculate_five (n : ℤ) (e : ℚ) :
    calculate n e 5 = Except.ok
      ⟨[("DDW", 38/5), ("Mix (5X)", 12/5), ("Primer Fwd", 1/2), ("Primer Rev", 1/2)],
       [("DDW", round_to_half (38/5 * (n : ℚ) * (1 + e / 100))),
        ("Mix (5X)", round_to_half (12/5 * (n : ℚ) * (1 + e / 100))),
        ("Primer Fwd", round_to_half (1/2 * (n : ℚ) * (1 + e / 100))),
        ("Primer Rev", round_to_half (1/2 * (n : ℚ) * (1 + e / 100)))],
       round_to_half (38/5 * (n : ℚ) * (1 + e / 100)) +
         (round_to_half (12/5 * (n : ℚ) * (1 + e / 100)) +
           (round_to_half (1/2 * (n : ℚ) * (1 + e / 100)) +
             (round_to_half (1/2 * (n : ℚ) * (1 + e / 100)) + 0)))⟩ := by
  with_unfolding_all rfl

/-- The mix-factor guard: anything outside {2, 5} is rejected up front. -/
lemma calculate_of_bad_mix (n : ℤ) (e : ℚ) (m : ℤ) (h2 : m ≠ 2) (h5 : m ≠ 5) :
    calculate n e m = Except.error InvalidMixFactor := by
  have hcond : ¬(m = 2 ∨ m = 5) := by tauto
  simp [calculate, hcond]

/-- C1: for every sampleCount ≥ 1, excessPercent ≥ 0 and mixFactor in {2, 5},
compute succeeds and returns per-sample volumes
mixVolume = 6.0 * (2.0 / mixFactor), ddwVolume = 11.0 − (mixVolume + 2 · 0.5),
Primer Fwd = 0.5, Primer Rev = 0.5, with the per-sample mapping in the fixed
insertion order DDW, Mix (NX), Primer Fwd, Primer Rev. -/
theorem c1_per_sample_formulas (n : ℤ) (e : ℚ) (m : ℤ)
    (hn : 1 ≤ n) (he : 0 ≤ e) (hm : m = 2 ∨ m = 5) :
    ∃ r, calculate n e m = Except.ok r ∧
      r.per_sample =
        [("DDW", PER_SAMPLE_TOTAL - (6 * (2 / (m : ℚ)) + 2 * PRIMER_PER)),
         (mixLabel m, 6 * (2 / (m : ℚ))),
         ("Primer Fwd", PRIMER_PER),
         ("Primer Rev", PRIMER_PER)] := by
  rcases hm with rfl | rfl
  · refine ⟨_, calculate_two n e, ?_⟩
    show [(("DDW" : String), (4 : ℚ)), ("Mix (2X)", 6),
        ("Primer Fwd", 1/2), ("Primer Rev", 1/2)] =
      [("DDW", PER_SAMPLE_TOTAL - (6 * (2 / ((2 : ℤ) : ℚ)) + 2 * PRIMER_PER)),
       (mixLabel 2, 6 * (2 / ((2 : ℤ) : ℚ))),
       ("Primer Fwd", PRIMER_PER), ("Primer Rev", PRIMER_PER)]
    with_unfolding_all decide
  · refine ⟨_, calculate_five n e, ?_⟩
    show [(("DDW" : String), (38/5 : ℚ)), ("Mix (5X)", 12/5),
        ("Primer Fwd", 1/2), ("Primer Rev", 1/2)] =
      [("DDW", PER_SAMPLE_TOTAL - (6 * (2 / ((5 : ℤ) : ℚ)) + 2 * PRIMER_PER)),
       (mixLabel 5, 6 * (2 / ((5 : ℤ) : ℚ))),
       ("Primer Fwd", PRIMER_PER), ("Primer Rev", PRIMER_PER)]
    with_unfolding_all decide

/-- Witness for C1 at sampleCount 8, excess 10, mix factor 2. -/
theorem c1_witness :
    ∃ r, calculate 8 10 2 = Except.ok r ∧
      r.per_sample =
        [("DDW", PER_SAMPLE_TOTAL - (6 * (2 / ((2 : ℤ) : ℚ)) + 2 * PRIMER_PER)),
         (mixLabel 2, 6 * (2 / ((2 : ℤ) : ℚ))),
         ("Primer Fwd", PRIMER_PER),
         ("Primer Rev", PRIMER_PER)] :=
  c1_per_sample_formulas 8 10 2 (by decide) (by norm_num) (Or.inl rfl)

/-- C2, counterexample: at sampleCount 1, excess 150, mix factor 2 the raw
primer amount is 0.5 · 1 · 2.5 = 1.25, an exact tie between 1.0 and 1.5.
The code's scaled Primer Fwd volume is 1.0 (Python's round resolves the tie
to even), while the claim's round-half-away-from-zero rule gives 1.5. -/
theorem c2_counterexample :
    ((calculate 1 150 2).toOption.bind fun r => r.totals.lookup "Primer Fwd") =
        some 1 ∧
    (roundHalfAwayFromZero (PRIMER_PER * 1 * (1 + (150 : ℚ) / 100) * 2) : ℚ) / 2 =
        3 / 2 ∧
    ((1 : ℚ) ≠ 3 / 2) := by
  refine ⟨by with_unfolding_all rfl, by with_unfolding_all rfl, by norm_num⟩

/-- C2 as amended: for every valid input and every ingredient, the scaled
volume equals round(perSampleVolume · sampleCount · (1 + excessPercent/100) · 2) / 2
where round resolves an exact half-integer tie to the even integer (Python 3
round semantics), applied independently to each ingredient. -/
theorem c2_per_ingredient_rounding (n : ℤ) (e : ℚ) (m : ℤ)
    (hn : 1 ≤ n) (he : 0 ≤ e) (hm : m = 2 ∨ m = 5) :
    ∃ r, calculate n e m = Except.ok r ∧
      ∀ p ∈ r.totals, ∃ v, r.per_sample.lookup p.1 = some v ∧
        p.2 = (pyRound (v * (n : ℚ) * (1 + e / 100) * 2) : ℚ) / 2 := by
  rcases hm with rfl | rfl
  · refine ⟨_, calculate_two n e, ?_⟩
    intro p hp
    simp only [List.mem_cons, List.not_mem_nil, or_false] at hp
    rcases hp with rfl | rfl | rfl | rfl
    · exact ⟨4, by with_unfolding_all rfl, rfl⟩
    · exact ⟨6, by with_unfolding_all rfl, rfl⟩
    · exact ⟨1/2, by with_unfolding_all rfl, rfl⟩
    · exact ⟨1/2, by with_unfolding_all rfl, rfl⟩
  · refine ⟨_, calculate_five n e, ?_⟩
    intro p hp
    simp only [List.mem_cons, List.not_mem_nil, or_false] at hp
    rcases hp with rfl | rfl | rfl | rfl
    · exact ⟨38/5, by with_unfolding_all rfl, rfl⟩
    · exact ⟨12/5, by with_unfolding_all rfl, rfl⟩
    · exact ⟨1/2, by with_unfolding_all rfl, rfl⟩
    · exact ⟨1/2, by with_unfolding_all rfl, rfl⟩

/-- Witness for the amended C2 at sampleCount 8, excess 10, mix factor 2. -/
theorem c2_witness :
    ∃ r, calculate 8 10 2 = Except.ok r ∧
      ∀ p ∈ r.totals, ∃ v, r.per_sample.lookup p.1 = some v ∧
        p.2 = (pyRound (v * ((8 : ℤ) : ℚ) * (1 + (10 : ℚ) / 100) * 2) : ℚ) / 2 :=
  c2_per_ingredient_rounding 8 10 2 (by decide) (by norm_num) (Or.inl rfl)

/-- C3: for every valid input the grand total is the exact sum of the
already-rounded scaled ingredient volumes, and (concretely, at sampleCount 1,
excess 7, mix factor 5, where it is 11.5) it differs both from the naive
product 11 · n · factor = 11.77 and from that product rounded to 0.5 (12.0). -/
theorem c3_grand_total_is_sum :
    (∀ (n : ℤ) (e : ℚ) (m : ℤ) (r : CalcResult), calculate n e m = Except.ok r →
        r.grand_total = (r.totals.map Prod.snd).sum) ∧
    ((calculate 1 7 5).toOption.map CalcResult.grand_total = some (23/2) ∧
      (23/2 : ℚ) ≠ round_to_half (PER_SAMPLE_TOTAL * 1 * (1 + (7 : ℚ) / 100)) ∧
      (23/2 : ℚ) ≠ PER_SAMPLE_TOTAL * 1 * (1 + (7 : ℚ) / 100)) := by
  constructor
  · intro n e m r h
    simp only [calculate] at h
    split at h
    · exact Except.noConfusion h
    · split at h
      · exact Except.noConfusion h
      · injection h with h'
        subst h'
        rfl
  · exact ⟨by with_unfolding_all rfl, by with_unfolding_all decide,
      by with_unfolding_all decide⟩

/-- C4: a mix factor outside {2, 5} is rejected immediately with the
InvalidMixFactor error, for every sample count and excess percent; no result
is produced. -/
theorem c4_invalid_mix_factor (n : ℤ) (e : ℚ) (m : ℤ) (h2 : m ≠ 2) (h5 : m ≠ 5) :
    calculate n e m = Except.error InvalidMixFactor :=
  calculate_of_bad_mix n e m h2 h5

/-- Witness for C4 at mix factor 3. -/
theorem c4_witness : calculate 0 0 3 = Except.error InvalidMixFactor :=
  c4_invalid_mix_factor 0 0 3 (by decide) (by decide)

/-- C5: for every valid input compute succeeds and every scaled ingredient
volume is a non-negative multiple of 0.5 (it equals k/2 for a non-negative
integer k). -/
theorem c5_scaled_nonneg_half_multiples (n : ℤ) (e : ℚ) (m : ℤ)
    (hn : 1 ≤ n) (he : 0 ≤ e) (hm : m = 2 ∨ m = 5) :
    ∃ r, calculate n e m = Except.ok r ∧
      ∀ p ∈ r.totals, 0 ≤ p.2 ∧ ∃ k : ℤ, 0 ≤ k ∧ p.2 = (k : ℚ) / 2 := by
  have hn' : (0 : ℚ) ≤ (n : ℚ) := by
    have h0 : (0 : ℤ) ≤ n := le_trans zero_le_one hn
    exact_mod_cast h0
  have hfac : (0 : ℚ) ≤ 1 + e / 100 := by positivity
  rcases hm with rfl | rfl
  · refine ⟨_, calculate_two n e, ?_⟩
    intro p hp
    simp only [List.mem_cons, List.not_mem_nil, or_false] at hp
    rcases hp with rfl | rfl | rfl | rfl <;>
      exact round_to_half_nonneg_half
        (mul_nonneg (mul_nonneg (by norm_num) hn') hfac)
  · refine ⟨_, calculate_five n e, ?_⟩
    intro p hp
    simp only [List.mem_cons, List.not_mem_nil, or_false] at hp
    rcases hp with rfl | rfl | rfl | rfl <;>
      exact round_to_half_nonneg_half
        (mul_nonneg (mul_nonneg (by norm_num) hn') hfac)

/-- Witness for C5 at sampleCount 8, excess 10, mix factor 2. -/
theorem c5_witness :
    ∃ r, calculate 8 10 2 = Except.ok r ∧
      ∀ p ∈ r.totals, 0 ≤ p.2 ∧ ∃ k : ℤ, 0 ≤ k ∧ p.2 = (k : ℚ) / 2 :=
  c5_scaled_nonneg_half_multiples 8 10 2 (by decide) (by norm_num) (Or.inl rfl)

/-- C6: for both supported mix factors the computed DDW volume
11 − (6·(2/m) + 1) is non-negative, so after the mix-factor check passes
compute never raises NegativeDiluentVolume and always succeeds — the
negative-diluent branch is unreachable, for every sample count and excess. -/
theorem c6_negative_ddw_unreachable (n : ℤ) (e : ℚ) (m : ℤ)
    (hm : m = 2 ∨ m = 5) :
    0 ≤ PER_SAMPLE_TOTAL - (6 * (2 / (m : ℚ)) + 2 * PRIMER_PER) ∧
    calculate n e m ≠ Except.error NegativeDiluentVolume ∧
    ∃ r, calculate n e m = Except.ok r := by
  rcases hm with rfl | rfl
  · exact ⟨by with_unfolding_all decide,
      by rw [calculate_two n e]; exact fun h => Except.noConfusion h,
      ⟨_, calculate_two n e⟩⟩
  · exact ⟨by with_unfolding_all decide,
      by rw [calculate_five n e]; exact fun h => Except.noConfusion h,
      ⟨_, calculate_five n e⟩⟩

/-- Witness for C6 at sampleCount 1, excess 0, mix factor 5. -/
theorem c6_witness :
    0 ≤ PER_SAMPLE_TOTAL - (6 * (2 / ((5 : ℤ) : ℚ)) + 2 * PRIMER_PER) ∧
    calculate 1 0 5 ≠ Except.error NegativeDiluentVolume ∧
    ∃ r, calculate 1 0 5 = Except.ok r :=
  c6_negative_ddw_unreachable 1 0 5 (Or.inr rfl)

/-- C7: compute(8, 10, 2) yields per-sample volumes DDW 4.0, Mix (2X) 6.0,
Primer Fwd 0.5, Primer Rev 0.5, scaled volumes DDW 35.0, Mix 53.0,
Primer Fwd 4.5, Primer Rev 4.5, and grand total 97.0. -/
theorem c7_concrete_scenario :
    calculate 8 10 2 = Except.ok
      ⟨[("DDW", 4), ("Mix (2X)", 6), ("Primer Fwd", 1/2), ("Primer Rev", 1/2)],
       [("DDW", 35), ("Mix (2X)", 53), ("Primer Fwd", 9/2), ("Primer Rev", 9/2)],
       97⟩ := by
  with_unfolding_all rfl

/-- C8: the report of the standard scenario, in full; the formatter is the
intercalation of the header lines, one row per ingredient in insertion order,
and the rules and total row; the total row's per-sample column is the
constant string "11.0" — fmt1 of the fixed PER_SAMPLE_TOTAL, independent of
the ingredient data — and its master-mix column is fmt1 of the grand total;
a per-sample column that sums to 10 (not 11) still shows 11.0. -/
theorem c8_format_report :
    (format_text_report 8 10 2
        [("DDW", 4), ("Mix (2X)", 6), ("Primer Fwd", 1/2), ("Primer Rev", 1/2)]
        [("DDW", 35), ("Mix (2X)", 53), ("Primer Fwd", 9/2), ("Primer Rev", 9/2)]
        97 =
      "PCR Report | Samples: 8 | Excess: 10.0% | Mix: 2X\n" ++
      "=========================" ++ "=========================\n" ++
      "INGREDIENT           | PER SAMPLE |   MASTER MIX\n" ++
      "-------------------------" ++ "-------------------------\n" ++
      "DDW                  |     4.0 µL |      35.0 µL\n" ++
      "Mix (2X)             |     6.0 µL |      53.0 µL\n" ++
      "Primer Fwd           |     0.5 µL |       4.5 µL\n" ++
      "Primer Rev           |     0.5 µL |       4.5 µL\n" ++
      "-------------------------" ++ "-------------------------\n" ++
      "TOTAL VOLUME         |    11.0 µL |      97.0 µL") ∧
    (∀ (n : ℤ) (exc grand : ℚ) (mx : ℤ) (per tot : List (String × ℚ)),
        format_text_report n exc mx per tot grand =
          String.intercalate "\n"
            ([headerLine n exc mx, srep '=' 50, columnHeader, srep '-' 50] ++
              per.map (reportRow tot) ++ [srep '-' 50, totalRow grand])) ∧
    (∀ g : ℚ, totalRow g =
        "TOTAL VOLUME         |    11.0 µL | " ++ rjust (fmt1 g) 9 ++ " µL") ∧
    fmt1 PER_SAMPLE_TOTAL = "11.0" ∧
    ((10 : ℚ) ≠ PER_SAMPLE_TOTAL ∧
      format_text_report 1 0 2 [("X", 10)] [("X", 10)] 10 =
        "PCR Report | Samples: 1 | Excess: 0.0% | Mix: 2X\n" ++
        "=========================" ++ "=========================\n" ++
        "INGREDIENT           | PER SAMPLE |   MASTER MIX\n" ++
        "-------------------------" ++ "-------------------------\n" ++
        "X                    |    10.0 µL |      10.0 µL\n" ++
        "-------------------------" ++ "-------------------------\n" ++
        "TOTAL VOLUME         |    11.0 µL |      10.0 µL") := by
  refine ⟨by with_unfolding_all rfl, fun n exc grand mx per tot => rfl,
    fun g => ?_, by with_unfolding_all rfl,
    by norm_num [PER_SAMPLE_TOTAL], by with_unfolding_all rfl⟩
  with_unfolding_all rfl

/-- C9, counterexample: at sampleCount 1 and excess −100.5 (< −100, mix 2)
every scaled volume is 0, not negative: the claim's aside that
excess_percent < −100 yields negative scaled volumes fails there. -/
theorem c9_counterexample :
    ((calculate 1 (-201/2) 2).toOption.map fun r => r.totals.map Prod.snd) =
        some [0, 0, 0, 0] ∧
    ((-201/2 : ℚ) < -100) ∧
    ¬ ((0 : ℚ) < 0) := by
  refine ⟨by with_unfolding_all rfl, by norm_num, by norm_num⟩

/-- C9 as amended: the engine performs no range validation — for both
supported mix factors calculate succeeds for every sample count (0 and
negative included) and every excess percent (negative included); sufficiently
negative excess (e.g. −200 with one sample) yields negative scaled volumes,
though excess just below −100 may round to zero; the sampleCount ≥ 1 and
excessPercent ≥ 0 checks live only in the presentation layer (get_inputs). -/
theorem c9_no_range_validation_in_engine :
    (∀ (n : ℤ) (e : ℚ), (calculate n e 2).isOk = true ∧
        (calculate n e 5).isOk = true) ∧
    ((calculate 0 10 2).isOk = true ∧ (calculate (-5) (-50) 5).isOk = true) ∧
    (((calculate 1 (-200) 2).toOption.map fun r => r.totals.map Prod.snd) =
        some [-4, -6, -1/2, -1/2] ∧
      ∀ q ∈ [(-4 : ℚ), -6, -1/2, -1/2], q < 0) ∧
    (∀ (n : ℤ) (e : ℚ) (m : ℤ), PCRGui.get_inputs n e m = none ↔ (n < 1 ∨ e < 0)) := by
  refine ⟨fun n e => ⟨by rw [calculate_two n e]; rfl, by rw [calculate_five n e]; rfl⟩,
    ⟨by rw [calculate_two 0 10]; rfl, by rw [calculate_five (-5) (-50)]; rfl⟩,
    ⟨by with_unfolding_all rfl, by norm_num⟩, ?_⟩
  intro n e m
  unfold PCRGui.get_inputs
  split_ifs with h1 h2
  · simp [h1]
  · simp [h1, h2]
  · simp [h1, h2]

/-- C10: for both supported mix factors the four per-sample volumes returned
by calculate sum exactly to PER_SAMPLE_TOTAL = 11, and the report's total row
renders that constant as "11.0", so the fixed figure always equals the true
per-sample column sum. -/
theorem c10_per_sample_sums_to_eleven (n : ℤ) (e : ℚ) :
    ((calculate n e 2).toOption.map fun r => (r.per_sample.map Prod.snd).sum) =
        some PER_SAMPLE_TOTAL ∧
    ((calculate n e 5).toOption.map fun r => (r.per_sample.map Prod.snd).sum) =
        some PER_SAMPLE_TOTAL ∧
    fmt1 PER_SAMPLE_TOTAL = "11.0" := by
  refine ⟨?_, ?_, by with_unfolding_all rfl⟩
  · rw [calculate_two n e]
    with_unfolding_all rfl
  · rw [calculate_five n e]
    with_unfolding_all rfl

end PCR
